import Mathlib

/-!
Shallow embedding of the wsjtx_lib_nodejs native core:
the C-ABI bridge (src/wsjtx_bridge/wsjtx_bridge.cpp) and the N-API facade
(src/native/wsjtx_wrapper.cpp), together with the TypeScript facade's
synchronous validation layer.  Machine integers are modelled as Int,
audio samples as rationals, C byte buffers as lists of UInt8, and C++
exceptions escaping the wrapped compute library as an explicit outcome type.
-/

/-! ## Error codes (wsjtx_bridge.h, enum wsjtx_error_t) -/

def WSJTX_OK : Int := 0
def WSJTX_ERR_INVALID_HANDLE : Int := -1
def WSJTX_ERR_INVALID_MODE : Int := -2
def WSJTX_ERR_INVALID_PARAM : Int := -3
def WSJTX_ERR_NULL_POINTER : Int := -4
def WSJTX_ERR_BUFFER_TOO_SMALL : Int := -5
def WSJTX_ERR_DECODE_FAILED : Int := -10
def WSJTX_ERR_ENCODE_FAILED : Int := -11
def WSJTX_ERR_OUT_OF_MEMORY : Int := -12
def WSJTX_ERR_THREAD_ERROR : Int := -13
def WSJTX_ERR_INTERNAL : Int := -99

/-! ## Mode enumerations -/

/-- The C++ `wsjtxMode` enumeration of the compute library, as replicated in
src/native/wsjtx_wrapper.h (FT8=0, FT4=1, JT4=2, JT65=3, JT9=4, FT2=5,
WSPR=6, ECHO=7, FST4=8, Q65=9, FST4W=10). -/
inductive wsjtxMode
  | FT8 | FT4 | JT4 | JT65 | JT9 | FT2 | WSPR | ECHO | FST4 | Q65 | FST4W
deriving DecidableEq, Repr

/-- Underlying integer value of each `wsjtxMode` enumerator. -/
def wsjtxMode.toInt : wsjtxMode → Int
  | .FT8 => 0
  | .FT4 => 1
  | .JT4 => 2
  | .JT65 => 3
  | .JT9 => 4
  | .FT2 => 5
  | .WSPR => 6
  | .ECHO => 7
  | .FST4 => 8
  | .Q65 => 9
  | .FST4W => 10

/-- Values of the bridge's own C enum `wsjtx_mode_t` (wsjtx_bridge.h). -/
def WSJTX_MODE_FT8 : Int := 0
def WSJTX_MODE_FT4 : Int := 1
def WSJTX_MODE_JT65 : Int := 2
def WSJTX_MODE_WSPR : Int := 3

/-- `convert_mode` from wsjtx_bridge.cpp: the C switch over the integer value
of a `wsjtx_mode_t` argument, mapping it to the compute library's C++ enum;
every value outside the four bridge enumerators falls through to FT8. -/
def convert_mode (mode : Int) : wsjtxMode :=
  if mode = WSJTX_MODE_FT8 then .FT8
  else if mode = WSJTX_MODE_FT4 then .FT4
  else if mode = WSJTX_MODE_JT65 then .JT65
  else if mode = WSJTX_MODE_WSPR then .WSPR
  else .FT8

/-- `get_sample_rate_internal` from wsjtx_bridge.cpp: every case of the
switch, including the default, returns 12000. -/
def get_sample_rate_internal (mode : Int) : Int :=
  if mode = WSJTX_MODE_FT8 then 12000
  else if mode = WSJTX_MODE_FT4 then 12000
  else if mode = WSJTX_MODE_JT65 then 12000
  else if mode = WSJTX_MODE_WSPR then 12000
  else 12000

/-- Exported `wsjtx_get_sample_rate` (wsjtx_bridge.cpp). -/
def wsjtx_get_sample_rate (mode : Int) : Int := get_sample_rate_internal mode

/-- `get_max_samples_internal` from wsjtx_bridge.cpp. -/
def get_max_samples_internal (mode : Int) : Int :=
  let sample_rate := get_sample_rate_internal mode
  if mode = WSJTX_MODE_FT8 then sample_rate * 15
  else if mode = WSJTX_MODE_FT4 then sample_rate * 7
  else if mode = WSJTX_MODE_JT65 then sample_rate * 60
  else if mode = WSJTX_MODE_WSPR then sample_rate * 120
  else sample_rate * 15

/-! ## Exceptions at the C boundary

The bridge wraps every call into the compute library in a try block whose
catch chain distinguishes std::invalid_argument, std::bad_alloc, any other
std::exception, and anything else.  The behaviour of the wrapped call is an
input of the model: either a normal return value or a raised exception. -/

/-- Kinds of C++ exception distinguished by the bridge's catch chains. -/
inductive CppException
  | invalidArgument
  | badAlloc
  | otherStd
  | other
deriving DecidableEq, Repr

/-- Outcome of a call into the wrapped compute library: a normal return or a
thrown C++ exception. -/
inductive LibOutcome (α : Type)
  | ok (val : α)
  | raise (e : CppException)

/-- `wsjtx_decode` from wsjtx_bridge.cpp.  `handleOk` models `handle != NULL`,
`samplesNull` models `audio_samples == NULL`; `libDecode` is the outcome of
`lib->decode(...)` (together with the surrounding MinGW-side allocations)
inside the try block.  Returns the C status code. -/
def wsjtx_decode (handleOk : Bool) (samplesNull : Bool)
    (sample_count frequency num_threads : Int)
    (libDecode : LibOutcome Unit) : Int :=
  if ¬ handleOk then WSJTX_ERR_INVALID_HANDLE
  else if samplesNull ∨ sample_count ≤ 0 then WSJTX_ERR_INVALID_PARAM
  else
    match libDecode with
    | .ok _ => WSJTX_OK
    | .raise .invalidArgument => WSJTX_ERR_INVALID_PARAM
    | .raise .badAlloc => WSJTX_ERR_OUT_OF_MEMORY
    | .raise .otherStd => WSJTX_ERR_DECODE_FAILED
    | .raise .other => WSJTX_ERR_INTERNAL

/-- `wsjtx_encode` from wsjtx_bridge.cpp.  `capacity` is the incoming value of
`*output_sample_count`; `buffer` is the caller-owned output buffer content;
`libEncode` is the outcome of `lib->encode(...)`, whose normal value is the
encoded waveform.  Returns (status, buffer content after the call, value of
`*output_sample_count` after the call). -/
def wsjtx_encode (handleOk : Bool) (messageNull outputNull countNull : Bool)
    (capacity : Int) (libEncode : LibOutcome (List ℚ)) (buffer : List ℚ) :
    Int × List ℚ × Int :=
  if ¬ handleOk then (WSJTX_ERR_INVALID_HANDLE, buffer, capacity)
  else if messageNull ∨ outputNull ∨ countNull then
    (WSJTX_ERR_NULL_POINTER, buffer, capacity)
  else if capacity ≤ 0 then (WSJTX_ERR_INVALID_PARAM, buffer, capacity)
  else
    match libEncode with
    | .ok result =>
        if (result.length : Int) > capacity then
          (WSJTX_ERR_BUFFER_TOO_SMALL, buffer, capacity)
        else
          (WSJTX_OK, result ++ buffer.drop result.length, (result.length : Int))
    | .raise .invalidArgument => (WSJTX_ERR_INVALID_PARAM, buffer, capacity)
    | .raise .badAlloc => (WSJTX_ERR_OUT_OF_MEMORY, buffer, capacity)
    | .raise .otherStd => (WSJTX_ERR_ENCODE_FAILED, buffer, capacity)
    | .raise .other => (WSJTX_ERR_INTERNAL, buffer, capacity)

example : wsjtx_decode true false 0 1000 4 (.ok ()) = WSJTX_ERR_INVALID_PARAM := by decide
example : wsjtx_encode true false false false 2 (.ok [1, 2, 3]) [0, 0] =
    (WSJTX_ERR_BUFFER_TOO_SMALL, [0, 0], 2) := by decide
example : convert_mode 6 = wsjtxMode.FT8 := by decide
example : convert_mode 3 = wsjtxMode.WSPR := by decide

/-! ## Decoded messages and the pull path -/

/-- A decoded message as produced by the compute library (`WsjtxMessage`,
whose text is a C++ std::string, modelled as a byte list). -/
structure WsjtxMessage where
  hh : Int
  min : Int
  sec : Int
  snr : Int
  sync : ℚ
  dt : ℚ
  freq : Int
  msg : List UInt8
deriving DecidableEq, Repr

/-- The C struct `wsjtx_message_t` (wsjtx_bridge.h): fixed fields plus an
80-byte `char message[80]` buffer. -/
structure wsjtx_message_t where
  hh : Int
  min : Int
  sec : Int
  snr : Int
  sync : ℚ
  dt : ℚ
  freq : Int
  message : List UInt8
deriving DecidableEq, Repr

/-- Bytes of a C string up to (not including) its first NUL terminator:
what `c_str()` exposes to `strncpy`. -/
def cstr (src : List UInt8) : List UInt8 := src.takeWhile (fun b => b ≠ 0)

/-- `strncpy(dst, src, n)` writes exactly `n` bytes into `dst`: the first
`min n (strlen src)` bytes of `src`, padded to `n` bytes with NULs when the
source is shorter. -/
def strncpyBytes (src : List UInt8) (n : Nat) : List UInt8 :=
  (cstr src).take n ++ List.replicate (n - (cstr src).length) 0

/-- The message-copy step of `wsjtx_pull_message` (wsjtx_bridge.cpp): fields
are copied one by one, the text is copied with
`strncpy(message->message, msg.msg.c_str(), sizeof(message->message) - 1)`
into the 80-byte buffer and `message->message[79]` is then set to NUL. -/
def fillMessage (m : WsjtxMessage) : wsjtx_message_t :=
  { hh := m.hh, min := m.min, sec := m.sec, snr := m.snr,
    sync := m.sync, dt := m.dt, freq := m.freq,
    message := strncpyBytes m.msg 79 ++ [0] }

/-- `wsjtx_pull_message` (wsjtx_bridge.cpp) over the instance's FIFO message
queue: returns 0 on an empty queue and leaves it unchanged, otherwise returns
1 together with the filled caller struct and removes the head message. -/
def wsjtx_pull_message : List WsjtxMessage → Int × Option wsjtx_message_t × List WsjtxMessage
  | [] => (0, none, [])
  | m :: rest => (1, some (fillMessage m), rest)

/-- `WSJTXLibWrapper::PullMessages` (wsjtx_wrapper.cpp): loops calling
`wsjtx_pull_message_` until it returns a non-positive value, appending each
returned message to the result array in order.  Each iteration consumes the
queue head, so the loop is modelled by structural recursion on the queue;
result is (collected messages, remaining queue). -/
def PullMessages : List WsjtxMessage → List wsjtx_message_t × List WsjtxMessage
  | [] => ([], [])
  | m :: rest =>
      let c := (wsjtx_pull_message (m :: rest)).2.1
      let r := PullMessages rest
      (c.elim r.1 (fun cm => cm :: r.1), r.2)

/-! ## Facade static capability table (wsjtx_wrapper.cpp, MODE_INFO) -/

/-- Entry of the facade's static mode table. -/
structure ModeInfo where
  sampleRate : Int
  duration : ℚ
  encodingSupported : Bool
  decodingSupported : Bool
deriving DecidableEq, Repr

/-- The static map `MODE_INFO` of wsjtx_wrapper.cpp; `none` models a mode
with no entry (`MODE_INFO.find(mode) == MODE_INFO.end()`): the enumerators
FT2 and ECHO have no entry in the source initializer list. -/
def MODE_INFO : wsjtxMode → Option ModeInfo
  | .FT8 => some ⟨48000, 12.64, true, true⟩
  | .FT4 => some ⟨48000, 6.0, true, true⟩
  | .JT4 => some ⟨11025, 47.1, false, true⟩
  | .JT65 => some ⟨11025, 46.8, false, true⟩
  | .JT9 => some ⟨12000, 49.0, false, true⟩
  | .FST4 => some ⟨12000, 60.0, false, true⟩
  | .Q65 => some ⟨12000, 60.0, false, true⟩
  | .FST4W => some ⟨12000, 120.0, false, true⟩
  | .WSPR => some ⟨12000, 110.6, false, true⟩
  | .FT2 => none
  | .ECHO => none

/-- `ConvertToWSJTXMode` (wsjtx_wrapper.cpp) is `static_cast<wsjtxMode>(mode)`
on the JS integer.  For integers that are enumerator values the cast yields
that enumerator; for other integers the C++ behaviour is unspecified and the
callers only apply it after `ValidateMode`, so the default branch (FT8 here)
is never reached on validated input. -/
def ConvertToWSJTXMode (mode : Int) : wsjtxMode :=
  if mode = 0 then .FT8
  else if mode = 1 then .FT4
  else if mode = 2 then .JT4
  else if mode = 3 then .JT65
  else if mode = 4 then .JT9
  else if mode = 5 then .FT2
  else if mode = 6 then .WSPR
  else if mode = 7 then .ECHO
  else if mode = 8 then .FST4
  else if mode = 9 then .Q65
  else if mode = 10 then .FST4W
  else .FT8

/-- `WSJTXLibWrapper::GetSampleRate` (wsjtx_wrapper.cpp), after the JS mode
integer has been cast to `wsjtxMode`.  `msvcMode` selects the
WSJTX_WINDOWS_MSVC_MODE compile branch; `bridge_get_sample_rate` is the
resolved `wsjtx_get_sample_rate_` function pointer.  In the MSVC branch the
bridge's value is used whenever it is positive and the static table is only a
fallback; in the other branch the static table alone is consulted, with 12000
as default for a mode without an entry. -/
def GetSampleRate (msvcMode : Bool) (bridge_get_sample_rate : Int → Int)
    (m : wsjtxMode) : Int :=
  if msvcMode then
    let sampleRate := bridge_get_sample_rate m.toInt
    if sampleRate ≤ 0 then
      match MODE_INFO m with
      | some info => info.sampleRate
      | none => 12000
    else sampleRate
  else
    match MODE_INFO m with
    | some info => info.sampleRate
    | none => 12000

example : GetSampleRate true wsjtx_get_sample_rate .FT8 = 12000 := by decide
example : GetSampleRate false wsjtx_get_sample_rate .FT8 = 48000 := by decide

/-! ## Facade synchronous validation and worker scheduling
(wsjtx_wrapper.cpp, WSJTXLibWrapper::Decode / Encode) -/

/-- `WSJTXLibWrapper::ValidateMode`: throws std::invalid_argument unless
0 ≤ mode ≤ WSPR (= 6). -/
def ValidateMode (mode : Int) : Except String Unit :=
  if mode < 0 ∨ mode > wsjtxMode.WSPR.toInt then .error "Invalid mode value"
  else .ok ()

/-- `WSJTXLibWrapper::ValidateFrequency`: throws unless 0 ≤ frequency ≤ 30 MHz. -/
def ValidateFrequency (frequency : Int) : Except String Unit :=
  if frequency < 0 ∨ frequency > 30000000 then .error "Invalid frequency value"
  else .ok ()

/-- `WSJTXLibWrapper::ValidateThreads`: throws unless 1 ≤ threads ≤ 16. -/
def ValidateThreads (threads : Int) : Except String Unit :=
  if threads < 1 ∨ threads > 16 then
    .error "Thread count must be between 1 and 16"
  else .ok ()

/-- `WSJTXLibWrapper::ValidateMessage`: throws unless 1 ≤ length ≤ 22. -/
def ValidateMessage (message : String) : Except String Unit :=
  if message.length = 0 ∨ message.length > 22 then
    .error "Message must be 1-22 characters long"
  else .ok ()

/-- The JS audio argument as classified by `WSJTXLibWrapper::Decode`. -/
inductive AudioArg
  | float32 (data : List ℚ)
  | int16 (data : List Int)
  | otherTypedArray
  | notTypedArray

/-- A queued `DecodeWorker`: the captured-by-copy inputs of the background
task created after validation succeeds. -/
structure QueuedDecodeWorker where
  mode : wsjtxMode
  floatData : List ℚ
  intData : List Int
  useFloat : Bool
  frequency : Int
  threads : Int

/-- A queued `EncodeWorker`. -/
structure QueuedEncodeWorker where
  mode : wsjtxMode
  message : String
  frequency : Int
  threads : Int

/-- `WSJTXLibWrapper::Decode` (wsjtx_wrapper.cpp): validates mode, frequency
and threads in that order (a validation exception becomes a synchronously
thrown JS error), classifies the audio argument, and only then constructs and
queues a `DecodeWorker`.  `.error` models a synchronous throw with no worker
queued. -/
def Decode (mode frequency threads : Int) (audio : AudioArg) :
    Except String QueuedDecodeWorker := do
  ValidateMode mode
  ValidateFrequency frequency
  ValidateThreads threads
  match audio with
  | .float32 d => .ok ⟨ConvertToWSJTXMode mode, d, [], true, frequency, threads⟩
  | .int16 d => .ok ⟨ConvertToWSJTXMode mode, [], d, false, frequency, threads⟩
  | .otherTypedArray => .error "Audio data must be Float32Array or Int16Array"
  | .notTypedArray => .error "Audio data must be a typed array"

/-- `WSJTXLibWrapper::Encode` (wsjtx_wrapper.cpp): validates mode, frequency,
threads and message in that order, checks `MODE_INFO` encoding support, and
only then queues an `EncodeWorker`. -/
def Encode (mode : Int) (message : String) (frequency threads : Int) :
    Except String QueuedEncodeWorker := do
  ValidateMode mode
  ValidateFrequency frequency
  ValidateThreads threads
  ValidateMessage message
  let m := ConvertToWSJTXMode mode
  match MODE_INFO m with
  | some info =>
      if info.encodingSupported then .ok ⟨m, message, frequency, threads⟩
      else .error "Encoding not supported for this mode"
  | none => .error "Encoding not supported for this mode"

/-- One call through the resolved C function table, as issued by a worker's
`Execute`: the mode integer actually passed (via `static_cast<wsjtx_mode_t>`),
the sample count, frequency and threads. -/
structure BoundaryCall where
  callMode : Int
  sampleCount : Int
  frequency : Int
  threads : Int
deriving DecidableEq, Repr

/-- The boundary calls `DecodeWorker::Execute` makes: exactly one
`wsjtx_decode_` call, with the facade's mode numbering passed through
`static_cast` unchanged and int16 input first converted to floats by
division by 32768. -/
def DecodeWorkerExecuteCalls (w : QueuedDecodeWorker) : List BoundaryCall :=
  let audioData : List ℚ :=
    if w.useFloat then w.floatData else w.intData.map (fun i => (i : ℚ) / 32768)
  [⟨w.mode.toInt, (audioData.length : Int), w.frequency, w.threads⟩]

/-- Boundary calls made on behalf of a `decode` invocation: none when the
facade threw synchronously, else the queued worker's calls. -/
def DecodeBoundaryCalls (r : Except String QueuedDecodeWorker) : List BoundaryCall :=
  match r with
  | .error _ => []
  | .ok w => DecodeWorkerExecuteCalls w

/-- Boundary calls made on behalf of an `encode` invocation: none when the
facade threw synchronously; a queued `EncodeWorker` calls
`wsjtx_get_max_samples_` and then `wsjtx_encode_`, both with the cast mode. -/
def EncodeBoundaryCalls (r : Except String QueuedEncodeWorker) : List BoundaryCall :=
  match r with
  | .error _ => []
  | .ok w =>
      [⟨w.mode.toInt, get_max_samples_internal w.mode.toInt, w.frequency, w.threads⟩,
       ⟨w.mode.toInt, get_max_samples_internal w.mode.toInt, w.frequency, w.threads⟩]

example : Decode 0 1000 4 (.float32 [1]) =
    .ok ⟨.FT8, [1], [], true, 1000, 4⟩ := by rfl
example : ∃ e, Decode 11 1000 4 (.float32 [1]) = .error e := ⟨_, rfl⟩
example : ∃ e, Encode 0 "" 1000 4 = .error e := ⟨_, rfl⟩

/-! ## Audio format conversion (wsjtx_wrapper.cpp, AudioConvertWorker) -/

/-- Clamping of a float sample to [-1, 1], the first step of the
float-to-int16 branch of `AudioConvertWorker::Execute`. -/
def clampUnit (v : ℚ) : ℚ := if v > 1 then 1 else if v < -1 then -1 else v

/-- C `lround`: round to nearest integer, halfway cases away from zero.
The source multiplies by a power of two and `lround`s, both exact
float operations on in-range inputs, so the rational model is faithful. -/
def lround (q : ℚ) : Int := if 0 ≤ q then ⌊q + 1 / 2⌋ else ⌈q - 1 / 2⌉

/-- The per-sample float-to-int16 conversion of `AudioConvertWorker::Execute`:
clamp to [-1, 1], scale by 32768, round, clamp the integer to int16 range. -/
def floatToInt16 (v : ℚ) : Int :=
  let c := clampUnit v
  max (-32768) (min 32767 (lround (c * 32768)))

/-- The per-sample int16-to-float conversion (`intData / 32768.0f`), used both
by `AudioConvertWorker::Execute` and by `DecodeWorker::Execute`. -/
def int16ToFloat (i : Int) : ℚ := (i : ℚ) / 32768

/-- Target representation selected by `convertAudioFormat`. -/
inductive ConvTarget
  | float32
  | int16
deriving DecidableEq, Repr

/-- `AudioConvertWorker::Execute` (wsjtx_wrapper.cpp): four branches on
(source representation, target representation); same-representation requests
are a plain copy.  Result is (floatOut, intOut); as in the source, the
member for the representation not produced stays empty. -/
def AudioConvertExecute (fromFloat : Bool) (target : ConvTarget)
    (floatInput : List ℚ) (intInput : List Int) : List ℚ × List Int :=
  if fromFloat then
    match target with
    | .float32 => (floatInput, [])
    | .int16 => ([], floatInput.map floatToInt16)
  else
    match target with
    | .int16 => ([], intInput)
    | .float32 => (intInput.map int16ToFloat, [])

example : AudioConvertExecute true .int16 [1, -1, 0, 1/2] [] =
    ([], [32767, -32768, 0, 16384]) := by
  norm_num [AudioConvertExecute, floatToInt16, clampUnit, lround, Int.ceil_le]
example : AudioConvertExecute true .int16 [2, -3] [] = ([], [32767, -32768]) := by
  norm_num [AudioConvertExecute, floatToInt16, clampUnit, lround, Int.ceil_le]

/-! ## Bridge loader (wsjtx_wrapper.cpp, LoadBridge / UnloadBridge) -/

/-- Environment of one load attempt: whether path introspection, the dynamic
library load, each of the seven symbol resolutions, and `wsjtx_create()`
succeed. -/
structure LoadEnv where
  pathOk : Bool
  libLoads : Bool
  sym_create : Bool
  sym_destroy : Bool
  sym_decode : Bool
  sym_pull : Bool
  sym_encode : Bool
  sym_gsr : Bool
  sym_gms : Bool
  createOk : Bool
deriving DecidableEq, Repr

/-- The wrapper's loader-relevant state: `dll_handle_`, `lib_handle_` and the
seven function pointers, each modelled as non-null or null. -/
structure WrapperState where
  dll_handle : Bool
  lib_handle : Bool
  fcreate : Bool
  fdestroy : Bool
  fdecode : Bool
  fpull : Bool
  fencode : Bool
  fgsr : Bool
  fgms : Bool
deriving DecidableEq, Repr

/-- Constructor-initialized state: every handle and pointer null. -/
def initWrapperState : WrapperState :=
  ⟨false, false, false, false, false, false, false, false, false⟩

/-- `WSJTXLibWrapper::UnloadBridge`: destroys the instance when both the
handle and the destroy pointer are non-null, frees the dynamic library, and
nulls every function pointer. -/
def UnloadBridge (s : WrapperState) : WrapperState :=
  let s1 := if s.lib_handle && s.fdestroy then { s with lib_handle := false } else s
  let s2 := { s1 with dll_handle := false }
  { s2 with fcreate := false, fdestroy := false, fdecode := false, fpull := false,
            fencode := false, fgsr := false, fgms := false }

/-- `WSJTXLibWrapper::LoadBridge`: path introspection, library load, the seven
symbol resolutions, the all-non-null check (calling `UnloadBridge` before
throwing when it fails), then `wsjtx_create()` (again calling `UnloadBridge`
before throwing on a null handle).  `.error` carries the state left behind
by the throw. -/
def LoadBridge (env : LoadEnv) (s0 : WrapperState) :
    Except (String × WrapperState) WrapperState :=
  if ¬ env.pathOk then .error ("Failed to get module path", s0)
  else
    let s1 := { s0 with dll_handle := env.libLoads }
    if ¬ env.libLoads then .error ("Failed to load bridge library", s1)
    else
      let s2 := { s1 with
                  fcreate := env.sym_create
                  fdestroy := env.sym_destroy
                  fdecode := env.sym_decode
                  fpull := env.sym_pull
                  fencode := env.sym_encode
                  fgsr := env.sym_gsr
                  fgms := env.sym_gms }
      if ¬ (s2.fcreate && s2.fdestroy && s2.fdecode && s2.fpull &&
            s2.fencode && s2.fgsr && s2.fgms) then
        .error ("Failed to load one or more required functions from bridge library",
                UnloadBridge s2)
      else
        let s3 := { s2 with lib_handle := env.createOk }
        if ¬ env.createOk then
          .error ("Failed to create WSJTX library instance", UnloadBridge s3)
        else .ok s3

/-- A function table (plus handles) that is fully populated: the Ready state. -/
def fullyPopulated (s : WrapperState) : Prop :=
  s.dll_handle = true ∧ s.lib_handle = true ∧ s.fcreate = true ∧ s.fdestroy = true ∧
  s.fdecode = true ∧ s.fpull = true ∧ s.fencode = true ∧ s.fgsr = true ∧ s.fgms = true

example : LoadBridge ⟨true, true, true, true, true, true, true, true, true, true⟩
    initWrapperState =
    .ok ⟨true, true, true, true, true, true, true, true, true⟩ := by rfl
example : LoadBridge ⟨true, true, true, true, true, false, true, true, true, true⟩
    initWrapperState =
    .error ("Failed to load one or more required functions from bridge library",
            initWrapperState) := by rfl

/-! ## TypeScript facade validation (unnamed TS source, class WSJTXLib) -/

/-- The numeric values of the TypeScript `WSJTXMode` enum: FT8=0, FT4=1,
JT4=2, JT65=3, JT9=4, FST4=5, Q65=6, FST4W=7, WSPR=8. -/
def tsModeValues : List Int := [0, 1, 2, 3, 4, 5, 6, 7, 8]

/-- A typed error thrown by the TypeScript facade (`WSJTXError`): message and
stable code string. -/
structure TsError where
  message : String
  code : String
deriving DecidableEq, Repr

/-- The TypeScript audio argument: a Float32Array, an Int16Array, or any
other value. -/
inductive TsAudio
  | float32 (data : List ℚ)
  | int16 (data : List Int)
  | otherValue

/-- TS `validateMode`: mode must be one of the enum's values. -/
def tsValidateMode (mode : Int) : Except TsError Unit :=
  if mode ∈ tsModeValues then .ok ()
  else .error ⟨"Invalid mode", "INVALID_MODE"⟩

/-- TS `validateFrequency`: integer in [0, 30000000]. -/
def tsValidateFrequency (frequency : Int) : Except TsError Unit :=
  if frequency < 0 ∨ frequency > 30000000 then
    .error ⟨"Invalid frequency", "INVALID_FREQUENCY"⟩
  else .ok ()

/-- TS `validateThreads`: integer in [1, 16]. -/
def tsValidateThreads (threads : Int) : Except TsError Unit :=
  if threads < 1 ∨ threads > 16 then
    .error ⟨"Invalid thread count", "INVALID_THREADS"⟩
  else .ok ()

/-- TS `validateAudioData`: must be a Float32Array or Int16Array, and
non-empty. -/
def tsValidateAudioData (audioData : TsAudio) : Except TsError Unit :=
  match audioData with
  | .otherValue =>
      .error ⟨"Invalid audio data: must be Float32Array or Int16Array",
              "INVALID_AUDIO_DATA"⟩
  | .float32 d =>
      if d.length = 0 then .error ⟨"Audio data cannot be empty", "INVALID_AUDIO_DATA"⟩
      else .ok ()
  | .int16 d =>
      if d.length = 0 then .error ⟨"Audio data cannot be empty", "INVALID_AUDIO_DATA"⟩
      else .ok ()

/-- The native `isDecodingSupported` consulted by the TS facade: cast the
mode integer and look up the static table. -/
def isDecodingSupportedNative (mode : Int) : Bool :=
  match MODE_INFO (ConvertToWSJTXMode mode) with
  | some info => info.decodingSupported
  | none => false

/-- The TS audio argument as seen by the native `Decode` after the N-API
typed-array classification. -/
def toNativeAudio : TsAudio → AudioArg
  | .float32 d => .float32 d
  | .int16 d => .int16 d
  | .otherValue => .notTypedArray

/-- The TS facade's `decode` up to the point where it hands off to
`native.decode`: validates mode, frequency, threads, then the audio buffer,
then decoding support — every step synchronous and before any background
work — and only then invokes the native `Decode` (which itself queues the
worker).  `.error` is a synchronously thrown `WSJTXError`. -/
def tsDecode (mode : Int) (audioData : TsAudio) (frequency threads : Int) :
    Except TsError (Except String QueuedDecodeWorker) := do
  tsValidateMode mode
  tsValidateFrequency frequency
  tsValidateThreads threads
  tsValidateAudioData audioData
  if ¬ isDecodingSupportedNative mode then
    .error ⟨"Decoding not supported for mode", "UNSUPPORTED_MODE"⟩
  else
    .ok (Decode mode frequency threads (toNativeAudio audioData))

/-- Boundary calls made on behalf of a TS `decode` invocation. -/
def tsDecodeBoundaryCalls (r : Except TsError (Except String QueuedDecodeWorker)) :
    List BoundaryCall :=
  match r with
  | .error _ => []
  | .ok native => DecodeBoundaryCalls native

example : tsDecode 0 (.float32 []) 1000 4 =
    .error ⟨"Audio data cannot be empty", "INVALID_AUDIO_DATA"⟩ := by rfl
example : tsDecodeBoundaryCalls (tsDecode 0 (.float32 []) 1000 4) = [] := by rfl

/-! ## Helper lemmas -/

lemma length_strncpyBytes (src : List UInt8) (n : Nat) :
    (strncpyBytes src n).length = n := by
  simp only [strncpyBytes, List.length_append, List.length_take, List.length_replicate]
  omega

lemma mem_cstr_ne_zero (src : List UInt8) : ∀ b ∈ cstr src, b ≠ 0 := by
  intro b hb
  simpa using List.mem_takeWhile_imp hb

lemma takeWhileNeZero_append (l rest : List UInt8) (hl : ∀ b ∈ l, b ≠ 0)
    (hrest : rest.takeWhile (fun b => b ≠ 0) = []) :
    (l ++ rest).takeWhile (fun b => b ≠ 0) = l := by
  induction l with
  | nil => simpa using hrest
  | cons a l ih =>
      have ha : a ≠ 0 := hl a (by simp)
      rw [List.cons_append, List.takeWhile_cons_of_pos (by simpa using ha),
        ih (fun b hb => hl b (by simp [hb]))]

lemma replicate_zero_takeWhile (k : Nat) :
    ((List.replicate k (0 : UInt8)) ++ [0]).takeWhile (fun b => b ≠ 0) = [] := by
  cases k <;> simp [List.replicate_succ, List.takeWhile_cons]

/-! ## Claim theorems -/

/-- C9: every message handed out by `wsjtx_pull_message` carries a text buffer
of exactly 80 bytes whose byte 79 is NUL, whose text content (the bytes before
the first NUL) is the source text truncated to at most 79 bytes, and which
therefore never holds more than 79 text bytes. -/
theorem pull_message_text_null_terminated (m : WsjtxMessage) :
    ((fillMessage m).message).length = 80 ∧
    ((fillMessage m).message).drop 79 = [0] ∧
    ((fillMessage m).message).takeWhile (fun b => b ≠ 0) = (cstr m.msg).take 79 ∧
    (((fillMessage m).message).takeWhile (fun b => b ≠ 0)).length ≤ 79 := by
  have hlen : (strncpyBytes m.msg 79).length = 79 := length_strncpyBytes m.msg 79
  refine ⟨?_, ?_, ?_, ?_⟩
  · simp [fillMessage, hlen]
  · show ((strncpyBytes m.msg 79) ++ ([0] : List UInt8)).drop 79 = [0]
    exact List.drop_left' hlen
  · show ((strncpyBytes m.msg 79) ++ [0]).takeWhile (fun b => b ≠ 0) = (cstr m.msg).take 79
    rw [strncpyBytes, List.append_assoc]
    exact takeWhileNeZero_append _ _
      (fun b hb => mem_cstr_ne_zero m.msg b (List.take_subset 79 _ hb))
      (replicate_zero_takeWhile _)
  · show (((strncpyBytes m.msg 79) ++ [0]).takeWhile (fun b => b ≠ 0)).length ≤ 79
    rw [strncpyBytes, List.append_assoc, takeWhileNeZero_append _ _
      (fun b hb => mem_cstr_ne_zero m.msg b (List.take_subset 79 _ hb))
      (replicate_zero_takeWhile _)]
    exact List.length_take_le 79 _

/-- C7: `PullMessages` drains the whole backlog in FIFO order — it returns
every queued message (converted by the bridge's copy step) and leaves the
queue empty — and draining is destructive: a second `PullMessages` with no
intervening decode returns the empty collection. -/
theorem pullMessages_drains_whole_queue (q : List WsjtxMessage) :
    (PullMessages q).1 = q.map fillMessage ∧
    (PullMessages q).2 = [] ∧
    PullMessages (PullMessages q).2 = ([], []) := by
  induction q with
  | nil => exact ⟨rfl, rfl, rfl⟩
  | cons m rest ih =>
      refine ⟨?_, ?_, ?_⟩ <;>
        simp [PullMessages, wsjtx_pull_message, Option.elim, ih.1, ih.2.1]

/-- C5: when the encoded waveform does not fit the caller-supplied capacity,
`wsjtx_encode` returns BUFFER_TOO_SMALL, leaves the caller's buffer
untouched and leaves the in/out sample count unchanged; on success it writes
exactly the waveform into the front of the buffer, leaves the rest of the
buffer unchanged, and stores the actual sample count into the in/out value. -/
theorem wsjtx_encode_buffer_contract (capacity : Int) (result buffer : List ℚ)
    (hcap : 0 < capacity) :
    ((result.length : Int) > capacity →
        wsjtx_encode true false false false capacity (.ok result) buffer =
          (WSJTX_ERR_BUFFER_TOO_SMALL, buffer, capacity)) ∧
    ((result.length : Int) ≤ capacity →
        wsjtx_encode true false false false capacity (.ok result) buffer =
          (WSJTX_OK, result ++ buffer.drop result.length, (result.length : Int))) := by
  have h0 : ¬ (capacity ≤ 0) := by omega
  constructor
  · intro h
    simp [wsjtx_encode, h0, h]
  · intro h
    simp [wsjtx_encode, h0, not_lt.mpr h]

/-- Witness for `wsjtx_encode_buffer_contract` at concrete inputs. -/
theorem wsjtx_encode_buffer_contract_witness :
    wsjtx_encode true false false false 2 (.ok [1, 2, 3]) [0, 0] =
      (WSJTX_ERR_BUFFER_TOO_SMALL, [0, 0], 2) ∧
    wsjtx_encode true false false false 4 (.ok [5]) [0, 0, 0, 0] =
      (WSJTX_OK, [5, 0, 0, 0], 1) := by
  constructor
  · exact (wsjtx_encode_buffer_contract 2 [1, 2, 3] [0, 0] (by norm_num)).1 (by norm_num)
  · have := (wsjtx_encode_buffer_contract 4 [5] [0, 0, 0, 0] (by norm_num)).2 (by norm_num)
    simpa using this

/-- C8: the exported bridge functions are total at the C boundary — for every
input, including every kind of exception escaping the wrapped compute
library, `wsjtx_decode` and `wsjtx_encode` return a status code from their
closed sets — and the catch chains map std::invalid_argument to
INVALID_PARAM, std::bad_alloc to OUT_OF_MEMORY, any other std::exception to
DECODE_FAILED / ENCODE_FAILED respectively, and anything else to INTERNAL. -/
theorem bridge_total_and_exception_mapped :
    (∀ (hOk sN : Bool) (c f t : Int) (body : LibOutcome Unit),
        wsjtx_decode hOk sN c f t body ∈
          [WSJTX_OK, WSJTX_ERR_INVALID_HANDLE, WSJTX_ERR_INVALID_PARAM,
           WSJTX_ERR_OUT_OF_MEMORY, WSJTX_ERR_DECODE_FAILED, WSJTX_ERR_INTERNAL]) ∧
    (∀ (c f t : Int), 0 < c →
        wsjtx_decode true false c f t (.raise .invalidArgument) = WSJTX_ERR_INVALID_PARAM ∧
        wsjtx_decode true false c f t (.raise .badAlloc) = WSJTX_ERR_OUT_OF_MEMORY ∧
        wsjtx_decode true false c f t (.raise .otherStd) = WSJTX_ERR_DECODE_FAILED ∧
        wsjtx_decode true false c f t (.raise .other) = WSJTX_ERR_INTERNAL) ∧
    (∀ (hOk mN oN cN : Bool) (cap : Int) (body : LibOutcome (List ℚ)) (buf : List ℚ),
        (wsjtx_encode hOk mN oN cN cap body buf).1 ∈
          [WSJTX_OK, WSJTX_ERR_INVALID_HANDLE, WSJTX_ERR_NULL_POINTER,
           WSJTX_ERR_INVALID_PARAM, WSJTX_ERR_BUFFER_TOO_SMALL,
           WSJTX_ERR_OUT_OF_MEMORY, WSJTX_ERR_ENCODE_FAILED, WSJTX_ERR_INTERNAL]) ∧
    (∀ (cap : Int) (buf : List ℚ), 0 < cap →
        (wsjtx_encode true false false false cap (.raise .invalidArgument) buf).1 =
          WSJTX_ERR_INVALID_PARAM ∧
        (wsjtx_encode true false false false cap (.raise .badAlloc) buf).1 =
          WSJTX_ERR_OUT_OF_MEMORY ∧
        (wsjtx_encode true false false false cap (.raise .otherStd) buf).1 =
          WSJTX_ERR_ENCODE_FAILED ∧
        (wsjtx_encode true false false false cap (.raise .other) buf).1 =
          WSJTX_ERR_INTERNAL) := by
  refine ⟨?_, ?_, ?_, ?_⟩
  · intro hOk sN c f t body
    rcases body with _ | e
    · unfold wsjtx_decode; split_ifs <;> simp
    · unfold wsjtx_decode; cases e <;> split_ifs <;> simp
  · intro c f t hc
    have h0 : ¬ (c ≤ 0) := by omega
    refine ⟨?_, ?_, ?_, ?_⟩ <;> simp [wsjtx_decode, h0]
  · intro hOk mN oN cN cap body buf
    rcases body with r | e
    · unfold wsjtx_encode
      by_cases hr : (r.length : Int) > cap <;> split_ifs <;> simp [hr]
    · unfold wsjtx_encode; cases e <;> split_ifs <;> simp
  · intro cap buf hcap
    have h0 : ¬ (cap ≤ 0) := by omega
    refine ⟨?_, ?_, ?_, ?_⟩ <;> simp [wsjtx_encode, h0]

/-- Witness for `bridge_total_and_exception_mapped` at a concrete sample
count and capacity. -/
theorem bridge_total_and_exception_mapped_witness :
    wsjtx_decode true false 1 1000 4 (.raise .other) = WSJTX_ERR_INTERNAL ∧
    (wsjtx_encode true false false false 1 (.raise .badAlloc) []).1 =
      WSJTX_ERR_OUT_OF_MEMORY := by
  constructor
  · exact (bridge_total_and_exception_mapped.2.1 1 1000 4 (by norm_num)).2.2.2
  · exact (bridge_total_and_exception_mapped.2.2.2 1 [] (by norm_num)).2.1

/-- C4: the bridge never reports INVALID_MODE — `wsjtx_decode` and
`wsjtx_encode` return it for no input — because `convert_mode` silently maps
every integer outside the bridge enum values 0..3 to FT8; and the facade
passes its own mode numbering across the boundary unchanged (the worker's
single boundary call carries `mode.toInt`), so the facade's JT65 (value 3)
is processed by the bridge as WSPR and the facade's WSPR (value 6) as FT8 —
a different protocol instead of an error. -/
theorem bridge_mode_mismatch_silent :
    (∀ (hOk sN : Bool) (c f t : Int) (body : LibOutcome Unit),
        wsjtx_decode hOk sN c f t body ≠ WSJTX_ERR_INVALID_MODE) ∧
    (∀ (hOk mN oN cN : Bool) (cap : Int) (body : LibOutcome (List ℚ)) (buf : List ℚ),
        (wsjtx_encode hOk mN oN cN cap body buf).1 ≠ WSJTX_ERR_INVALID_MODE) ∧
    (∀ mode : Int, mode ≠ WSJTX_MODE_FT8 → mode ≠ WSJTX_MODE_FT4 →
        mode ≠ WSJTX_MODE_JT65 → mode ≠ WSJTX_MODE_WSPR →
        convert_mode mode = wsjtxMode.FT8) ∧
    (∀ w : QueuedDecodeWorker,
        (DecodeWorkerExecuteCalls w).map BoundaryCall.callMode = [w.mode.toInt]) ∧
    convert_mode wsjtxMode.JT65.toInt = wsjtxMode.WSPR ∧
    convert_mode wsjtxMode.WSPR.toInt = wsjtxMode.FT8 ∧
    wsjtxMode.WSPR ≠ wsjtxMode.JT65 := by
  refine ⟨?_, ?_, ?_, ?_, by decide, by decide, by decide⟩
  · intro hOk sN c f t body
    rcases body with _ | e
    · unfold wsjtx_decode; split_ifs <;> simp [WSJTX_OK, WSJTX_ERR_INVALID_HANDLE,
        WSJTX_ERR_INVALID_PARAM, WSJTX_ERR_INVALID_MODE]
    · unfold wsjtx_decode; cases e <;> split_ifs <;> simp [WSJTX_ERR_INVALID_HANDLE,
        WSJTX_ERR_INVALID_PARAM, WSJTX_ERR_INVALID_MODE, WSJTX_ERR_OUT_OF_MEMORY,
        WSJTX_ERR_DECODE_FAILED, WSJTX_ERR_INTERNAL]
  · intro hOk mN oN cN cap body buf
    rcases body with r | e
    · unfold wsjtx_encode
      by_cases hr : (r.length : Int) > cap <;> split_ifs <;> simp [hr, WSJTX_OK,
        WSJTX_ERR_INVALID_HANDLE, WSJTX_ERR_NULL_POINTER, WSJTX_ERR_INVALID_PARAM,
        WSJTX_ERR_BUFFER_TOO_SMALL, WSJTX_ERR_INVALID_MODE]
    · unfold wsjtx_encode; cases e <;> split_ifs <;> simp [WSJTX_ERR_INVALID_HANDLE,
        WSJTX_ERR_NULL_POINTER, WSJTX_ERR_INVALID_PARAM, WSJTX_ERR_INVALID_MODE,
        WSJTX_ERR_OUT_OF_MEMORY, WSJTX_ERR_ENCODE_FAILED, WSJTX_ERR_INTERNAL]
  · intro mode h0 h1 h2 h3
    simp [convert_mode, WSJTX_MODE_FT8, WSJTX_MODE_FT4, WSJTX_MODE_JT65,
      WSJTX_MODE_WSPR] at h0 h1 h2 h3 ⊢
    simp [h0, h1, h2, h3]
  · intro w
    simp [DecodeWorkerExecuteCalls]

/-- Witness for `bridge_mode_mismatch_silent`: a mode integer outside the
bridge enum and a concrete decode call. -/
theorem bridge_mode_mismatch_silent_witness :
    convert_mode 7 = wsjtxMode.FT8 ∧
    wsjtx_decode true false 1 1000 4 (.ok ()) ≠ WSJTX_ERR_INVALID_MODE := by
  constructor
  · exact bridge_mode_mismatch_silent.2.2.1 7 (by decide) (by decide) (by decide) (by decide)
  · exact bridge_mode_mismatch_silent.1 true false 1 1000 4 (.ok ())

/-- C10: the loader is all-or-nothing — whenever `LoadBridge` starting from
the constructor-initialized state succeeds, the dynamic library handle, the
instance handle and all seven function pointers are populated; whenever it
fails (missing path, failed library load, any missing symbol, or a null
handle from `create()`), the state left behind is the fully cleared initial
state: no partially populated function table and no Ready state with a null
handle is reachable. -/
theorem loadBridge_all_or_nothing (env : LoadEnv) :
    (∀ s, LoadBridge env initWrapperState = .ok s → fullyPopulated s) ∧
    (∀ e s, LoadBridge env initWrapperState = .error (e, s) → s = initWrapperState) := by
  by_cases hp : env.pathOk <;>
  by_cases hll : env.libLoads <;>
  by_cases hsym : (env.sym_create && env.sym_destroy && env.sym_decode && env.sym_pull &&
      env.sym_encode && env.sym_gsr && env.sym_gms) = true <;>
  by_cases hco : env.createOk <;>
  refine ⟨fun s h => ?_, fun e s h => ?_⟩ <;>
  simp only [LoadBridge, UnloadBridge, hp, hll, hsym, hco] at h <;>
  simp_all [LoadBridge, UnloadBridge, initWrapperState, fullyPopulated] <;>
  (subst h; simp)

/-- Witness for `loadBridge_all_or_nothing`: a fully successful environment
yields the populated state, and an environment with one missing symbol leaves
the cleared state behind the failure. -/
theorem loadBridge_all_or_nothing_witness :
    fullyPopulated ⟨true, true, true, true, true, true, true, true, true⟩ ∧
    initWrapperState = initWrapperState := by
  constructor
  · exact (loadBridge_all_or_nothing
      ⟨true, true, true, true, true, true, true, true, true, true⟩).1 _ rfl
  · exact (loadBridge_all_or_nothing
      ⟨true, true, true, true, true, false, true, true, true, true⟩).2
      "Failed to load one or more required functions from bridge library"
      initWrapperState rfl

/-- C1: the facade's getSampleRate is table-driven only in the non-MSVC
compile branch; in the WSJTX_WINDOWS_MSVC_MODE branch it prefers the value
reported by the bridge's own `wsjtx_get_sample_rate` whenever positive, and
the bridge reports 12000 for every mode — so under MSVC every mode, FT8
included, yields 12000 while the static capability table declares 48000 for
FT8 (which the repository's own test suite asserts). -/
theorem getSampleRate_msvc_prefers_bridge :
    (∀ (f : Int → Int) (m : wsjtxMode),
        GetSampleRate false f m =
          ((MODE_INFO m).map ModeInfo.sampleRate).getD 12000) ∧
    (∀ m : wsjtxMode, GetSampleRate true wsjtx_get_sample_rate m = 12000) ∧
    (MODE_INFO wsjtxMode.FT8).map ModeInfo.sampleRate = some 48000 ∧
    GetSampleRate true wsjtx_get_sample_rate wsjtxMode.FT8 = 12000 := by
  refine ⟨?_, ?_, by decide, by decide⟩
  · intro f m
    cases m <;> rfl
  · intro m
    cases m <;> rfl

/-! ## Validator characterizations -/

lemma ValidateMode_ok_iff (mode : Int) :
    ValidateMode mode = .ok () ↔ (0 ≤ mode ∧ mode ≤ 6) := by
  unfold ValidateMode
  split_ifs with h <;> simp [wsjtxMode.toInt] at h ⊢ <;> omega

lemma ValidateFrequency_ok_iff (f : Int) :
    ValidateFrequency f = .ok () ↔ (0 ≤ f ∧ f ≤ 30000000) := by
  unfold ValidateFrequency
  split_ifs with h <;> simp at h ⊢ <;> omega

lemma ValidateThreads_ok_iff (t : Int) :
    ValidateThreads t = .ok () ↔ (1 ≤ t ∧ t ≤ 16) := by
  unfold ValidateThreads
  split_ifs with h <;> simp at h ⊢ <;> omega

lemma ValidateMessage_ok_iff (message : String) :
    ValidateMessage message = .ok () ↔ (1 ≤ message.length ∧ message.length ≤ 22) := by
  unfold ValidateMessage
  split_ifs with h <;> simp at h ⊢ <;> omega

lemma not_enum_value (mode : Int) (h : ∀ m : wsjtxMode, m.toInt ≠ mode) :
    mode < 0 ∨ 10 < mode := by
  by_contra hc
  push_neg at hc
  obtain ⟨h0, h10⟩ := hc
  interval_cases mode
  · exact h .FT8 rfl
  · exact h .FT4 rfl
  · exact h .JT4 rfl
  · exact h .JT65 rfl
  · exact h .JT9 rfl
  · exact h .FT2 rfl
  · exact h .WSPR rfl
  · exact h .ECHO rfl
  · exact h .FST4 rfl
  · exact h .Q65 rfl
  · exact h .FST4W rfl

lemma Decode_isError (mode f t : Int) (audio : AudioArg)
    (h : (mode < 0 ∨ 6 < mode) ∨ (f < 0 ∨ 30000000 < f) ∨ (t < 1 ∨ 16 < t)) :
    ∃ e, Decode mode f t audio = .error e := by
  rcases hv : ValidateMode mode with s | u
  · exact ⟨s, by simp [Decode, Bind.bind, Except.bind, hv]⟩
  · rcases hf : ValidateFrequency f with s | u2
    · exact ⟨s, by simp [Decode, Bind.bind, Except.bind, hv, hf]⟩
    · rcases ht : ValidateThreads t with s | u3
      · exact ⟨s, by simp [Decode, Bind.bind, Except.bind, hv, hf, ht]⟩
      · exfalso
        obtain ⟨hm1, hm2⟩ := (ValidateMode_ok_iff mode).mp (by cases u; exact hv)
        obtain ⟨hf1, hf2⟩ := (ValidateFrequency_ok_iff f).mp (by cases u2; exact hf)
        obtain ⟨ht1, ht2⟩ := (ValidateThreads_ok_iff t).mp (by cases u3; exact ht)
        omega

lemma Encode_isError (mode f t : Int) (message : String)
    (h : (mode < 0 ∨ 6 < mode) ∨ (f < 0 ∨ 30000000 < f) ∨ (t < 1 ∨ 16 < t) ∨
      (message.length = 0 ∨ 22 < message.length)) :
    ∃ e, Encode mode message f t = .error e := by
  rcases hv : ValidateMode mode with s | u
  · exact ⟨s, by simp [Encode, Bind.bind, Except.bind, hv]⟩
  · rcases hf : ValidateFrequency f with s | u2
    · exact ⟨s, by simp [Encode, Bind.bind, Except.bind, hv, hf]⟩
    · rcases ht : ValidateThreads t with s | u3
      · exact ⟨s, by simp [Encode, Bind.bind, Except.bind, hv, hf, ht]⟩
      · rcases hmsg : ValidateMessage message with s | u4
        · exact ⟨s, by simp [Encode, Bind.bind, Except.bind, hv, hf, ht, hmsg]⟩
        · exfalso
          obtain ⟨hm1, hm2⟩ := (ValidateMode_ok_iff mode).mp (by cases u; exact hv)
          obtain ⟨hf1, hf2⟩ := (ValidateFrequency_ok_iff f).mp (by cases u2; exact hf)
          obtain ⟨ht1, ht2⟩ := (ValidateThreads_ok_iff t).mp (by cases u3; exact ht)
          obtain ⟨hg1, hg2⟩ := (ValidateMessage_ok_iff message).mp (by cases u4; exact hmsg)
          omega

/-- C3: every out-of-range input — a mode integer that is no enumerator of
the closed mode enumeration, a frequency outside [0, 30000000], a thread
count outside [1, 16], or (for encode) a message whose length is outside
[1, 22] — makes the facade's Decode / Encode throw synchronously, before any
worker is queued, and the boundary function table is never invoked. -/
theorem facade_rejects_out_of_range_before_boundary :
    (∀ (mode f t : Int) (audio : AudioArg),
        ((∀ m : wsjtxMode, m.toInt ≠ mode) ∨ f < 0 ∨ 30000000 < f ∨ t < 1 ∨ 16 < t) →
        ∃ e, Decode mode f t audio = .error e ∧
          DecodeBoundaryCalls (Decode mode f t audio) = []) ∧
    (∀ (mode f t : Int) (message : String),
        ((∀ m : wsjtxMode, m.toInt ≠ mode) ∨ f < 0 ∨ 30000000 < f ∨ t < 1 ∨ 16 < t ∨
          message.length = 0 ∨ 22 < message.length) →
        ∃ e, Encode mode message f t = .error e ∧
          EncodeBoundaryCalls (Encode mode message f t) = []) := by
  constructor
  · intro mode f t audio h
    have hr : (mode < 0 ∨ 6 < mode) ∨ (f < 0 ∨ 30000000 < f) ∨ (t < 1 ∨ 16 < t) := by
      rcases h with h | h | h | h | h
      · rcases not_enum_value mode h with h | h
        · exact Or.inl (Or.inl h)
        · exact Or.inl (Or.inr (by omega))
      · exact Or.inr (Or.inl (Or.inl h))
      · exact Or.inr (Or.inl (Or.inr h))
      · exact Or.inr (Or.inr (Or.inl h))
      · exact Or.inr (Or.inr (Or.inr h))
    obtain ⟨e, he⟩ := Decode_isError mode f t audio hr
    exact ⟨e, he, by rw [he]; rfl⟩
  · intro mode f t message h
    have hr : (mode < 0 ∨ 6 < mode) ∨ (f < 0 ∨ 30000000 < f) ∨ (t < 1 ∨ 16 < t) ∨
        (message.length = 0 ∨ 22 < message.length) := by
      rcases h with h | h | h | h | h | h | h
      · rcases not_enum_value mode h with h | h
        · exact Or.inl (Or.inl h)
        · exact Or.inl (Or.inr (by omega))
      · exact Or.inr (Or.inl (Or.inl h))
      · exact Or.inr (Or.inl (Or.inr h))
      · exact Or.inr (Or.inr (Or.inl (Or.inl h)))
      · exact Or.inr (Or.inr (Or.inl (Or.inr h)))
      · exact Or.inr (Or.inr (Or.inr (Or.inl h)))
      · exact Or.inr (Or.inr (Or.inr (Or.inr h)))
    obtain ⟨e, he⟩ := Encode_isError mode f t message hr
    exact ⟨e, he, by rw [he]; rfl⟩

/-- Witness for `facade_rejects_out_of_range_before_boundary`: a mode integer
outside the enumeration for decode, and an empty message for encode. -/
theorem facade_rejects_out_of_range_witness :
    (∃ e, Decode 11 1000 4 (.float32 [1]) = .error e ∧
      DecodeBoundaryCalls (Decode 11 1000 4 (.float32 [1])) = []) ∧
    (∃ e, Encode 0 "" 1000 4 = .error e ∧
      EncodeBoundaryCalls (Encode 0 "" 1000 4) = []) := by
  constructor
  · exact facade_rejects_out_of_range_before_boundary.1 11 1000 4 (.float32 [1])
      (Or.inl (fun m => by cases m <;> decide))
  · exact facade_rejects_out_of_range_before_boundary.2 0 1000 4 ""
      (Or.inr (Or.inr (Or.inr (Or.inr (Or.inr (Or.inl rfl))))))

/-- C2: a decode call whose audio buffer is empty, with the other arguments
valid, is rejected by the TS facade synchronously with an
INVALID_AUDIO_DATA error — before the native layer is reached, before any
worker is queued, and without any boundary call. -/
theorem tsDecode_empty_audio_rejected (mode f t : Int)
    (hm : tsValidateMode mode = .ok ())
    (hf : tsValidateFrequency f = .ok ())
    (ht : tsValidateThreads t = .ok ()) :
    (tsDecode mode (.float32 []) f t =
        .error ⟨"Audio data cannot be empty", "INVALID_AUDIO_DATA"⟩ ∧
      tsDecodeBoundaryCalls (tsDecode mode (.float32 []) f t) = []) ∧
    (tsDecode mode (.int16 []) f t =
        .error ⟨"Audio data cannot be empty", "INVALID_AUDIO_DATA"⟩ ∧
      tsDecodeBoundaryCalls (tsDecode mode (.int16 []) f t) = []) := by
  have h1 : tsDecode mode (.float32 []) f t =
      .error ⟨"Audio data cannot be empty", "INVALID_AUDIO_DATA"⟩ := by
    simp [tsDecode, Bind.bind, Except.bind, hm, hf, ht, tsValidateAudioData]
  have h2 : tsDecode mode (.int16 []) f t =
      .error ⟨"Audio data cannot be empty", "INVALID_AUDIO_DATA"⟩ := by
    simp [tsDecode, Bind.bind, Except.bind, hm, hf, ht, tsValidateAudioData]
  exact ⟨⟨h1, by rw [h1]; rfl⟩, ⟨h2, by rw [h2]; rfl⟩⟩

/-- Witness for `tsDecode_empty_audio_rejected` at FT8, 1000 Hz, 4 threads. -/
theorem tsDecode_empty_audio_rejected_witness :
    tsDecode 0 (.float32 []) 1000 4 =
      .error ⟨"Audio data cannot be empty", "INVALID_AUDIO_DATA"⟩ ∧
    tsDecodeBoundaryCalls (tsDecode 0 (.float32 []) 1000 4) = [] :=
  (tsDecode_empty_audio_rejected 0 1000 4 rfl rfl rfl).1

/-! ## Quantization bound for the audio conversion -/

lemma clampUnit_bounds (v : ℚ) : -1 ≤ clampUnit v ∧ clampUnit v ≤ 1 := by
  unfold clampUnit
  split_ifs <;> constructor <;> linarith

lemma clampUnit_idem (v : ℚ) : clampUnit (clampUnit v) = clampUnit v := by
  unfold clampUnit
  split_ifs <;> first | rfl | linarith

lemma lround_abs_le (q : ℚ) : |(lround q : ℚ) - q| ≤ 1 / 2 := by
  unfold lround
  split_ifs with h
  · have h1 := Int.floor_le (q + 1 / 2)
    have h2 := Int.lt_floor_add_one (q + 1 / 2)
    rw [abs_le]
    constructor <;> push_cast at * <;> linarith
  · have h1 := Int.le_ceil (q - 1 / 2)
    have h2 := Int.ceil_lt_add_one (q - 1 / 2)
    rw [abs_le]
    constructor <;> push_cast at * <;> linarith

lemma int16_quantization (c : ℚ) (hc1 : -1 ≤ c) (hc2 : c ≤ 1) :
    |((max (-32768) (min 32767 (lround (c * 32768))) : Int) : ℚ) / 32768 - c| ≤
      1 / 32768 := by
  have hx1 : (-32768 : ℚ) ≤ c * 32768 := by nlinarith
  have hx2 : c * 32768 ≤ 32768 := by nlinarith
  have hr := lround_abs_le (c * 32768)
  rw [abs_le] at hr
  obtain ⟨hrl, hru⟩ := hr
  have hrlow : (-32768 : ℤ) ≤ lround (c * 32768) := by
    have h1 : (-32769 : ℚ) < (lround (c * 32768) : ℚ) := by linarith
    have h2 : (-32769 : ℤ) < lround (c * 32768) := by exact_mod_cast h1
    omega
  suffices habs :
      |((max (-32768) (min 32767 (lround (c * 32768))) : Int) : ℚ) - c * 32768| ≤ 1 by
    have heq : ((max (-32768) (min 32767 (lround (c * 32768))) : Int) : ℚ) / 32768 - c =
        (((max (-32768) (min 32767 (lround (c * 32768))) : Int) : ℚ) - c * 32768) / 32768 := by
      ring
    rw [heq, abs_div, show |(32768 : ℚ)| = 32768 by norm_num]
    exact (div_le_div_iff_of_pos_right (by norm_num : (0 : ℚ) < 32768)).mpr habs
  by_cases hcase : lround (c * 32768) ≤ 32767
  · rw [min_eq_right hcase, max_eq_right hrlow, abs_le]
    constructor <;> linarith
  · push_neg at hcase
    have hup : lround (c * 32768) ≤ 32768 := by
      have h1 : (lround (c * 32768) : ℚ) < 32769 := by linarith
      have h2 : lround (c * 32768) < (32769 : ℤ) := by exact_mod_cast h1
      omega
    have hreq : lround (c * 32768) = 32768 := by omega
    have hxlow : (32768 : ℚ) - c * 32768 ≤ 1 / 2 := by
      have := hru
      rw [hreq] at this
      push_cast at this
      linarith
    rw [hreq]
    have hmm : max (-32768) (min 32767 (32768 : ℤ)) = 32767 := by decide
    rw [hmm, abs_le]
    push_cast
    constructor <;> linarith

lemma floatToInt16_roundtrip_close (v : ℚ) :
    |int16ToFloat (floatToInt16 v) - clampUnit v| ≤ 1 / 32768 := by
  have h := int16_quantization (clampUnit v) (clampUnit_bounds v).1 (clampUnit_bounds v).2
  simpa [floatToInt16, int16ToFloat] using h

/-- C6: converting a float buffer to int16 and back yields each sample within
one 16-bit quantum (1/32768) of the clamped original; converting a buffer to
the representation it already has is the identity copy in both directions;
and the float-to-int16 direction clamps each sample to [-1, 1] before scaling
(converting any sample and its clamped value give the same int16). -/
theorem audioConvert_roundtrip_noop_clamp :
    (∀ v : ℚ, |int16ToFloat (floatToInt16 v) - clampUnit v| ≤ 1 / 32768) ∧
    (∀ input : List ℚ,
        (AudioConvertExecute false .float32 []
            ((AudioConvertExecute true .int16 input []).2)).1 =
          input.map (fun v => int16ToFloat (floatToInt16 v))) ∧
    (∀ input : List ℚ, AudioConvertExecute true .float32 input [] = (input, [])) ∧
    (∀ input : List Int, AudioConvertExecute false .int16 [] input = ([], input)) ∧
    (∀ v : ℚ, floatToInt16 v = floatToInt16 (clampUnit v)) := by
  refine ⟨floatToInt16_roundtrip_close, ?_, fun _ => rfl, fun _ => rfl, ?_⟩
  · intro input
    simp [AudioConvertExecute, List.map_map, Function.comp]
  · intro v
    unfold floatToInt16
    rw [clampUnit_idem]
